import Mathlib

/-!
# Verification of the average-calculator microservice (`server.js`)

Shallow embedding of the sliding-window average microservice.  The mutable
global `numberWindow` becomes explicit state passing: each JavaScript function
that reads or writes it takes the window as an argument and returns the new
window.  JavaScript numbers are modelled as `Int` (all values handled by the
claims are integers); the average, computed with `/` in JavaScript, is
modelled exactly as a rational.  The network fetch is modelled by an abstract
`FetchOutcome` describing what the upstream did, and `fetchNumbersWithTimeout`
maps each outcome to the value or error the JavaScript function produces.
-/

/-- `WINDOW_SIZE` constant from `server.js` (line 9). -/
def WINDOW_SIZE : Nat := 10

/-- `updateWindow` from `server.js` (lines 106-116), generalized over the
capacity (the source fixes it to `WINDOW_SIZE = 10`; `updateWindow` below
instantiates it).  The window state is passed and returned explicitly.

JavaScript source:

  const unique = newNumbers.filter((num) => !numberWindow.includes(num));
  if (unique.length === 0) return;
  const overflow = numberWindow.length + unique.length - WINDOW_SIZE;
  if (overflow > 0) { numberWindow = numberWindow.slice(overflow); }
  numberWindow = [...numberWindow, ...unique.slice(0, WINDOW_SIZE - numberWindow.length)];

`Array.prototype.slice(k)` for `k > 0` is `List.drop k` (dropping everything
when `k` exceeds the length, as `slice` does).  In `unique.slice(0, t)` the
bound `t = WINDOW_SIZE - numberWindow.length` is provably nonnegative on every
input (after the overflow trim the window holds at most `cap` elements), so
truncated `Nat` subtraction together with `List.take` is a faithful model of
the JavaScript expression. -/
def updateWindowCap (cap : Nat) (numberWindow newNumbers : List Int) : List Int :=
  let unique := newNumbers.filter fun num => !(numberWindow.contains num)
  if unique.length = 0 then numberWindow
  else
    let overflow : Int := (numberWindow.length : Int) + (unique.length : Int) - (cap : Int)
    let trimmed := if 0 < overflow then numberWindow.drop overflow.toNat else numberWindow
    trimmed ++ unique.take (cap - trimmed.length)

/-- `updateWindow` exactly as in `server.js`: capacity fixed to `WINDOW_SIZE`. -/
def updateWindow (numberWindow newNumbers : List Int) : List Int :=
  updateWindowCap WINDOW_SIZE numberWindow newNumbers

/-- `calculateAverage` from `server.js` (lines 119-123):

  if (!numbers.length) return 0;
  const sum = numbers.reduce((acc, num) => acc + num, 0);
  return sum / numbers.length;

The division is exact (rational) rather than floating point. -/
def calculateAverage (numbers : List Int) : Rat :=
  if numbers.length = 0 then 0
  else ((numbers.foldl (fun acc num => acc + num) 0 : Int) : Rat) / (numbers.length : Rat)

/-- Abstract outcome of the upstream network fetch: the upstream either
answered with an HTTP status and an optional `numbers` field in its JSON body,
or the 500 ms timer fired first and the request was aborted, or the fetch
failed for another reason (connection refused, malformed body, ...) with some
error message. -/
inductive FetchOutcome where
  | response (status : Nat) (numbers : Option (List Int))
  | timeout
  | networkError (msg : String)
deriving DecidableEq

/-- `Response.ok` of the fetch API: status in the range 200-299. -/
def responseOk (status : Nat) : Bool := 200 ≤ status && status ≤ 299

/-- `fetchNumbersWithTimeout` from `server.js` (lines 81-103), as a function of
the abstract fetch outcome.  The `try` block throws `Error("Status: " + status)`
on a non-ok response and otherwise returns `data.numbers || []`; the `catch`
block turns an `AbortError` (the timeout) into `[]` and rethrows anything
else.  `Except String` models thrown errors. -/
def fetchNumbersWithTimeout : FetchOutcome → Except String (List Int)
  | .response status numbers =>
      if responseOk status then .ok (numbers.getD [])
      else .error ("Status: " ++ toString status)
  | .timeout => .ok []
  | .networkError msg => .error msg

/-- The valid category identifiers, from `server.js` line 47. -/
def validIds : List String := ["p", "f", "e", "r"]

/-- The 400 error message from `server.js` lines 48-50. -/
def invalidIdError : String := "Invalid number ID. Use p, f, e, or r."

/-- JSON body and status of the reply to `GET /numbers/:numberid`.  Fields that
a given reply does not set are `none`.  `avg` is kept exact; the JavaScript
`Number.parseFloat(avg.toFixed(2))` display rounding is floating-point
formatting and is not modelled. -/
structure NumbersResponse where
  status : Nat
  windowPrevState : Option (List Int) := none
  windowCurrState : Option (List Int) := none
  numbers : Option (List Int) := none
  avg : Option Rat := none
  error : Option String := none
  message : Option String := none
deriving DecidableEq

/-- The `GET /numbers/:numberid` handler from `server.js` (lines 43-78), with
the global window passed in and the new window returned alongside the HTTP
reply.  The handler validates the id, then awaits the fetch; a thrown fetch
error lands in the `catch` block (500) before `updateWindow` runs. -/
def handleNumbers (numberWindow : List Int) (numberid : String)
    (outcome : FetchOutcome) : List Int × NumbersResponse :=
  if !(validIds.contains numberid) then
    (numberWindow, { status := 400, error := some invalidIdError })
  else
    match fetchNumbersWithTimeout outcome with
    | .error msg =>
        (numberWindow,
          { status := 500, error := some "Failed to process request", message := some msg })
    | .ok numbers =>
        let windowPrevState := numberWindow
        let newWindow := updateWindow numberWindow numbers
        let avg := calculateAverage newWindow
        (newWindow,
          { status := 200,
            windowPrevState := some windowPrevState,
            windowCurrState := some newWindow,
            numbers := some numbers,
            avg := some avg })

/-- Window states reachable from the empty initial window (`server.js` line 23)
by any sequence of `updateWindow` calls with arbitrary fetched sequences. -/
inductive Reachable : List Int → Prop where
  | empty : Reachable []
  | step (ns : List Int) {w : List Int} : Reachable w → Reachable (updateWindow w ns)

/-- Window states reachable from the empty initial window when every fetched
sequence has pairwise-distinct elements. -/
inductive ReachableNodup : List Int → Prop where
  | empty : ReachableNodup []
  | step (ns : List Int) {w : List Int} (hns : ns.Nodup) :
      ReachableNodup w → ReachableNodup (updateWindow w ns)

/-- Transcription of the merge algorithm as worded in spec section 4.2, kept
separate from `updateWindowCap` (which is transcribed from the JavaScript) so
the two can be compared.  Step 1: `unique` is the subsequence of the new
numbers whose values are not already present; if it is empty the window is
unchanged.  Step 2: `overflow = len(current_window) + len(unique) - capacity`;
if positive, the first `overflow` elements are evicted.  Step 3: append
`unique[0:take]` with `take = capacity - len(trimmed_window)`. -/
def mergeSpecModel (current_window new_numbers : List Int) (capacity : Nat) : List Int :=
  let unique := new_numbers.filter fun v => !(current_window.contains v)
  if unique = [] then current_window
  else
    let overflow : Int :=
      (current_window.length : Int) + (unique.length : Int) - (capacity : Int)
    let trimmed_window :=
      if 0 < overflow then current_window.drop overflow.toNat else current_window
    let take := capacity - trimmed_window.length
    trimmed_window ++ unique.take take

/-! ## Helper lemmas -/

/-- If every new number is already in the window, the filter in `updateWindowCap`
produces `[]` and the window is returned unchanged. -/
lemma updateWindowCap_of_forall_mem (cap : Nat) (w ns : List Int)
    (h : ∀ x ∈ ns, x ∈ w) : updateWindowCap cap w ns = w := by
  have hfilter : ns.filter (fun num => !(w.contains num)) = [] := by
    refine List.filter_eq_nil_iff.mpr fun a ha => ?_
    simp [h a ha]
  unfold updateWindowCap
  simp only [hfilter]
  rfl

/-- Merging never grows the window beyond the capacity. -/
lemma length_updateWindowCap_le (cap : Nat) (w ns : List Int)
    (h : w.length ≤ cap) : (updateWindowCap cap w ns).length ≤ cap := by
  unfold updateWindowCap
  simp only
  split
  · exact h
  · split <;>
      simp only [List.length_append, List.length_take, List.length_drop] <;>
      omega

/-- Merging a duplicate-free sequence into a duplicate-free window yields a
duplicate-free window: the filter keeps only values absent from the window,
and eviction and truncation only remove elements. -/
lemma nodup_updateWindowCap (cap : Nat) (w ns : List Int)
    (hw : w.Nodup) (hns : ns.Nodup) : (updateWindowCap cap w ns).Nodup := by
  unfold updateWindowCap
  simp only
  split
  · exact hw
  · have hu : (ns.filter fun num => !(w.contains num)).Nodup := hns.filter _
    have hdisj : ∀ x ∈ ns.filter (fun num => !(w.contains num)), x ∉ w := by
      intro x hx
      have hpx := (List.mem_filter.mp hx).2
      simp only [Bool.not_eq_true'] at hpx
      simpa using hpx
    split
    · refine List.Nodup.append (hw.sublist (List.drop_sublist _ _))
        (hu.sublist (List.take_sublist _ _)) ?_
      intro x hxw hxu
      exact hdisj x (List.mem_of_mem_take hxu) (List.mem_of_mem_drop hxw)
    · refine List.Nodup.append hw (hu.sublist (List.take_sublist _ _)) ?_
      intro x hxw hxu
      exact hdisj x (List.mem_of_mem_take hxu) hxw

/-- An element taken from the front of the dedup filter's output came from the
new numbers and was absent from the window. -/
lemma mem_take_filter {w ns : List Int} {t : Nat} {x : Int}
    (hx : x ∈ (ns.filter fun num => !(w.contains num)).take t) : x ∈ ns ∧ x ∉ w := by
  have hxf := List.mem_of_mem_take hx
  have hpx := (List.mem_filter.mp hxf).2
  simp only [Bool.not_eq_true'] at hpx
  refine ⟨(List.mem_filter.mp hxf).1, ?_⟩
  simpa using hpx

/-- Every merge result is a suffix of the old window followed by elements that
came from the new numbers and were not in the old window. -/
lemma updateWindowCap_decomp (cap : Nat) (w ns : List Int) :
    ∃ (k : Nat) (appended : List Int),
      updateWindowCap cap w ns = w.drop k ++ appended ∧
      ∀ x ∈ appended, x ∈ ns ∧ x ∉ w := by
  unfold updateWindowCap
  simp only
  split
  · exact ⟨0, [], by simp, by simp⟩
  · split
    · exact ⟨_, _, rfl, fun x hx => mem_take_filter hx⟩
    · exact ⟨0, (ns.filter fun num => !(w.contains num)).take (cap - w.length),
        by simp, fun x hx => mem_take_filter hx⟩

/-- Merging the empty fetched sequence is a no-op. -/
lemma updateWindow_nil (w : List Int) : updateWindow w [] = w :=
  updateWindowCap_of_forall_mem _ _ _ (by simp)

/-! ## Claim theorems -/

/-- C1 (counterexample): the distinctness invariant fails as stated.  The
dedup filter in `updateWindow` only tests membership in the existing window,
so a fetched sequence containing an internal duplicate of a value not yet in
the window, such as `[5, 5]` merged into the empty window, produces the
reachable window `[5, 5]`, whose elements are not pairwise distinct. -/
theorem c1_distinctness_counterexample :
    Reachable [5, 5] ∧ ¬ List.Pairwise (fun a b : Int => a ≠ b) [5, 5] := by
  constructor
  · have h : updateWindow [] [5, 5] = [5, 5] := by decide
    exact h ▸ Reachable.step [5, 5] Reachable.empty
  · decide

/-- C1 (amended): for every window state reachable from the empty window by
merges whose fetched sequences each have pairwise-distinct elements, the
window's elements are pairwise distinct. -/
theorem c1_window_pairwise_distinct {w : List Int} (h : ReachableNodup w) :
    List.Pairwise (fun a b : Int => a ≠ b) w := by
  induction h with
  | empty => exact List.Pairwise.nil
  | step ns hns _ ih => exact nodup_updateWindowCap _ _ _ ih hns

/-- Witness for C1's amended theorem at the state reached by merging `[1, 2]`
into the empty window. -/
theorem c1_window_pairwise_distinct_witness :
    List.Pairwise (fun a b : Int => a ≠ b) (updateWindow [] [1, 2]) :=
  c1_window_pairwise_distinct
    (ReachableNodup.step [1, 2] (by decide) ReachableNodup.empty)

/-- C2: the merge follows exactly the three-step algorithm worded in the spec
(dedup filter against the current window, eviction by the full untruncated
`unique` length, truncated append), and on the spec's concrete scenario the
full window `[1..10]` merged with `[11, 12]` gives `[3..10, 11, 12]`. -/
theorem c2_merge_matches_spec :
    (∀ (cap : Nat) (w ns : List Int), updateWindowCap cap w ns = mergeSpecModel w ns cap) ∧
    updateWindow [1, 2, 3, 4, 5, 6, 7, 8, 9, 10] [11, 12]
      = [3, 4, 5, 6, 7, 8, 9, 10, 11, 12] := by
  refine ⟨fun cap w ns => ?_, by decide⟩
  unfold updateWindowCap mergeSpecModel
  simp only [List.length_eq_zero]

/-- Witness for C2 at a concrete capacity, window and fetched sequence. -/
theorem c2_merge_matches_spec_witness :
    updateWindowCap 10 [1] [2, 3] = mergeSpecModel [1] [2, 3] 10 :=
  c2_merge_matches_spec.1 10 [1] [2, 3]

/-- C3: every window state reachable from the empty window by any sequence of
merges has length at most the capacity `WINDOW_SIZE = 10`. -/
theorem c3_window_length_le_capacity {w : List Int} (h : Reachable w) :
    w.length ≤ WINDOW_SIZE := by
  induction h with
  | empty => decide
  | step ns _ ih => exact length_updateWindowCap_le _ _ _ ih

/-- Witness for C3 at the state reached by merging `[1, 2, 3]` into the empty
window. -/
theorem c3_window_length_le_capacity_witness :
    (updateWindow [] [1, 2, 3]).length ≤ WINDOW_SIZE :=
  c3_window_length_le_capacity (Reachable.step [1, 2, 3] Reachable.empty)

/-- C4: merging an empty sequence leaves the window unchanged, and merging any
sequence all of whose values are already in the window is a no-op (the dedup
filter empties it before the eviction step can run). -/
theorem c4_duplicate_merge_noop :
    (∀ w : List Int, updateWindow w [] = w) ∧
    (∀ (w ns : List Int), (∀ x ∈ ns, x ∈ w) → updateWindow w ns = w) := by
  refine ⟨fun w => ?_, fun w ns h => ?_⟩
  · exact updateWindowCap_of_forall_mem _ _ _ (by simp)
  · exact updateWindowCap_of_forall_mem _ _ _ h

/-- Witness for C4: empty merge into `[7]`, and a full window merged with its
own complete contents (which would otherwise evict). -/
theorem c4_duplicate_merge_noop_witness :
    updateWindow [7] [] = [7] ∧
    updateWindow [1, 2, 3, 4, 5, 6, 7, 8, 9, 10] [1, 2, 3, 4, 5, 6, 7, 8, 9, 10]
      = [1, 2, 3, 4, 5, 6, 7, 8, 9, 10] :=
  ⟨c4_duplicate_merge_noop.1 [7], c4_duplicate_merge_noop.2 _ _ (by decide)⟩

/-- C5: the average of a non-empty window is the exact arithmetic mean, the
average of the empty window is `0`, and merging `[4, 8, 15, 16, 23, 42]` into
the empty window yields that sequence with average `18`. -/
theorem c5_average_correct :
    calculateAverage [] = 0 ∧
    (∀ w : List Int, w ≠ [] → calculateAverage w = ((w.sum : Rat) / (w.length : Rat))) ∧
    updateWindow [] [4, 8, 15, 16, 23, 42] = [4, 8, 15, 16, 23, 42] ∧
    calculateAverage [4, 8, 15, 16, 23, 42] = 18 := by
  refine ⟨rfl, fun w hw => ?_, by decide, by norm_num [calculateAverage]⟩
  unfold calculateAverage
  rw [if_neg (by simpa using hw)]
  simp [List.sum_eq_foldl]

/-- Witness for C5's mean clause at the window `[7, 9]`. -/
theorem c5_average_correct_witness :
    calculateAverage [7, 9] = ((([7, 9] : List Int).sum : Rat) / (([7, 9] : List Int).length : Rat)) :=
  c5_average_correct.2.1 [7, 9] (by decide)

/-- C6 (counterexample): the fetch does not return an empty sequence *only* on
timeout.  A successful (status 200) upstream response whose JSON body has no
`numbers` field also yields `.ok []` (`data.numbers || []`), so "empty exactly
when the timeout elapses first" fails. -/
theorem c6_empty_iff_timeout_counterexample :
    fetchNumbersWithTimeout (FetchOutcome.response 200 none) = .ok [] ∧
    FetchOutcome.response 200 none ≠ FetchOutcome.timeout :=
  ⟨rfl, by decide⟩

/-- C6 (amended): a timeout yields an empty sequence rather than an error
(though a successful response can also yield an empty sequence); every
non-timeout failure — a non-success status or a network error — raises an
error; and on a timeout the request handler succeeds with status 200, an empty
`numbers` field, and the window and average unchanged. -/
theorem c6_timeout_degrades_gracefully :
    fetchNumbersWithTimeout FetchOutcome.timeout = .ok [] ∧
    (∀ (status : Nat) (numbers : Option (List Int)), responseOk status = false →
      fetchNumbersWithTimeout (FetchOutcome.response status numbers)
        = .error ("Status: " ++ toString status)) ∧
    (∀ msg : String, fetchNumbersWithTimeout (FetchOutcome.networkError msg) = .error msg) ∧
    (∀ (w : List Int) (id : String), validIds.contains id = true →
      handleNumbers w id FetchOutcome.timeout =
        (w, { status := 200, windowPrevState := some w, windowCurrState := some w,
              numbers := some ([] : List Int), avg := some (calculateAverage w) })) := by
  refine ⟨rfl, fun status numbers h => ?_, fun msg => rfl, fun w id h => ?_⟩
  · simp [fetchNumbersWithTimeout, h]
  · have h1 : id ∈ validIds := by simpa using h
    simp [handleNumbers, h1, fetchNumbersWithTimeout, updateWindow_nil]

/-- Witness for C6's amended theorem: a 404 response, a network error, and a
timed-out request against the window `[1, 2]` with category `p`. -/
theorem c6_timeout_degrades_gracefully_witness :
    fetchNumbersWithTimeout (FetchOutcome.response 404 (some [1]))
      = .error ("Status: " ++ toString 404) ∧
    fetchNumbersWithTimeout (FetchOutcome.networkError "connection refused")
      = .error "connection refused" ∧
    handleNumbers [1, 2] "p" FetchOutcome.timeout =
      ([1, 2], { status := 200, windowPrevState := some [1, 2], windowCurrState := some [1, 2],
                 numbers := some ([] : List Int), avg := some (calculateAverage [1, 2]) }) :=
  ⟨c6_timeout_degrades_gracefully.2.1 404 (some [1]) (by decide),
   c6_timeout_degrades_gracefully.2.2.1 "connection refused",
   c6_timeout_degrades_gracefully.2.2.2 [1, 2] "p" (by decide)⟩

/-- C7: when the fetch throws (any `.error` outcome), the handler lands in the
`catch` block before `updateWindow` runs, so the window is unchanged. -/
theorem c7_fetch_error_leaves_window_unchanged (w : List Int) (id : String)
    (o : FetchOutcome) (msg : String)
    (h : fetchNumbersWithTimeout o = .error msg) :
    (handleNumbers w id o).1 = w := by
  unfold handleNumbers
  split
  · rfl
  · rw [h]

/-- Witness for C7: a network-error fetch against the window `[1]`. -/
theorem c7_fetch_error_leaves_window_unchanged_witness :
    (handleNumbers [1] "p" (FetchOutcome.networkError "boom")).1 = [1] :=
  c7_fetch_error_leaves_window_unchanged [1] "p" (FetchOutcome.networkError "boom") "boom" rfl

/-- C8: every merge result is a suffix of the old window (eviction only from
the front, preserving the survivors' relative order) followed by newly
appended elements, each of which came from the fetched sequence and was not
previously in the window. -/
theorem c8_merge_preserves_relative_order (w ns : List Int) :
    ∃ (k : Nat) (appended : List Int),
      updateWindow w ns = w.drop k ++ appended ∧
      ∀ x ∈ appended, x ∈ ns ∧ x ∉ w :=
  updateWindowCap_decomp WINDOW_SIZE w ns

/-- Witness for C8 at the window `[1, 2]` and fetched sequence `[3]`. -/
theorem c8_merge_preserves_relative_order_witness :
    ∃ (k : Nat) (appended : List Int),
      updateWindow [1, 2] [3] = ([1, 2] : List Int).drop k ++ appended ∧
      ∀ x ∈ appended, x ∈ ([3] : List Int) ∧ x ∉ ([1, 2] : List Int) :=
  c8_merge_preserves_relative_order [1, 2] [3]

/-- C9: an invalid category id is rejected with status 400 and the exact error
body, before the fetch outcome is ever consulted: the reply is the same for
every fetch outcome and the window is unchanged. -/
theorem c9_invalid_id_rejected_before_fetch (w : List Int) (id : String)
    (o : FetchOutcome) (h : validIds.contains id = false) :
    handleNumbers w id o = (w, { status := 400, error := some invalidIdError }) ∧
    ∀ o2 : FetchOutcome, handleNumbers w id o = handleNumbers w id o2 := by
  have h1 : id ∉ validIds := by simpa using h
  constructor
  · simp [handleNumbers, h1]
  · intro o2
    simp [handleNumbers, h1]

/-- Witness for C9 at the invalid id `x`: the 400 reply, window unchanged, and
independence from the fetch outcome. -/
theorem c9_invalid_id_rejected_before_fetch_witness :
    handleNumbers [1] "x" FetchOutcome.timeout
      = ([1], { status := 400, error := some invalidIdError }) ∧
    handleNumbers [1] "x" FetchOutcome.timeout
      = handleNumbers [1] "x" (FetchOutcome.networkError "e") :=
  ⟨(c9_invalid_id_rejected_before_fetch [1] "x" FetchOutcome.timeout (by decide)).1,
   (c9_invalid_id_rejected_before_fetch [1] "x" FetchOutcome.timeout (by decide)).2
     (FetchOutcome.networkError "e")⟩

/-- C10: when the deduplicated fetched values do not all fit (window length
plus their count reaches the capacity), the merged window has length exactly
the capacity; and when there are at least capacity-many deduplicated values,
the old window is entirely evicted and the result is the first capacity-many
of them. -/
theorem c10_merge_fills_to_capacity (cap : Nat) (w ns : List Int)
    (hw : w.length ≤ cap)
    (hne : ns.filter (fun num => !(w.contains num)) ≠ [])
    (hfull : cap ≤ w.length + (ns.filter fun num => !(w.contains num)).length) :
    (updateWindowCap cap w ns).length = cap ∧
    (cap ≤ (ns.filter fun num => !(w.contains num)).length →
      updateWindowCap cap w ns = (ns.filter fun num => !(w.contains num)).take cap) := by
  unfold updateWindowCap
  simp only
  rw [if_neg (fun h0 => hne (List.length_eq_zero.mp h0))]
  constructor
  · split <;>
      simp only [List.length_append, List.length_take, List.length_drop] <;> omega
  · intro hcap
    split
    case isTrue h1 =>
      have hk : w.length ≤ ((w.length : Int)
          + ((ns.filter fun num => !(w.contains num)).length : Int) - (cap : Int)).toNat := by
        omega
      rw [List.drop_eq_nil_of_le hk]
      simp
    case isFalse h1 =>
      have hw0 : w = [] := List.length_eq_zero.mp (by omega)
      subst hw0
      simp

/-- Witness for C10: capacity 2, window `[1]`, fetched `[3, 4, 5]` — the old
window is fully evicted and the result is the first two unique values. -/
theorem c10_merge_fills_to_capacity_witness :
    (updateWindowCap 2 [1] [3, 4, 5]).length = 2 ∧
    updateWindowCap 2 [1] [3, 4, 5]
      = (([3, 4, 5] : List Int).filter fun num => !(([1] : List Int).contains num)).take 2 :=
  ⟨(c10_merge_fills_to_capacity 2 [1] [3, 4, 5] (by decide) (by decide) (by decide)).1,
   (c10_merge_fills_to_capacity 2 [1] [3, 4, 5] (by decide) (by decide) (by decide)).2
     (by decide)⟩
